import Mathlib

/-!
Verification development for the RebarWeb repository (master.py, app.py).

The Python source is shallowly embedded: dictionaries become structures,
the tier table becomes a list of tiers in configuration (insertion) order,
real arithmetic is modelled exactly with rationals, HTTP results and
exceptions become Except values, and the polling loop body becomes a pure
state-transition function on the relay cache.
-/

/-- A cement-mix tier as stored in cement_ratios: a name, the integer
cement/sand/aggregate ratio, and an optional half-open diameter range
in millimetres (the source guards each entry with a membership test for
the diameter_range key, hence the Option). -/
structure Tier where
  name : String
  cement : ℕ
  sand : ℕ
  aggregate : ℕ
  diameter_range : Option (ℚ × ℚ)
deriving DecidableEq, Repr

/-- Whether a tier's configured half-open range [min, max) contains a
diameter, mirroring the source test min_diam <= diameter_mm < max_diam;
a tier without a diameter_range entry never matches. -/
def tierContains (t : Tier) (d : ℚ) : Bool :=
  match t.diameter_range with
  | some (lo, hi) => decide (lo ≤ d) && decide (d < hi)
  | none => false

/-- Tier classification from detect_sections in master.py: size starts as
the literal string "small", the loop scans the configured tiers in their
configuration (dict insertion) order and takes the first tier whose range
contains the diameter, breaking there; if no tier matches, the initial
"small" is kept. -/
def classify : List Tier → ℚ → String
  | [], _ => "small"
  | t :: ts, d => if tierContains t d then t.name else classify ts d

/-- Insert a tier into a list sorted ascending by range minimum. -/
def insertByMin (t : Tier) : List Tier → List Tier
  | [] => [t]
  | u :: us => if tierMin t ≤ tierMin u then t :: u :: us else u :: insertByMin t us
where
  /-- Sort key: the lower end of the diameter range (0 when absent). -/
  tierMin (t : Tier) : ℚ :=
    match t.diameter_range with
    | some (lo, _) => lo
    | none => 0

/-- Sort tiers ascending by the minimum of their diameter range. -/
def sortByMin (ts : List Tier) : List Tier := ts.foldr insertByMin []

/-- Tier classification following the words of the specification, NOT the
source (stated for comparison with classify): sort the configured tiers
ascending by diameter_range minimum, select the first tier whose range
contains the diameter, and if none does, fall back to the smallest tier
(the head of the sorted list). -/
def specTierClassify (tiers : List Tier) (d : ℚ) : String :=
  let s := sortByMin tiers
  match s.find? (fun t => tierContains t d) with
  | some t => t.name
  | none =>
    match s.head? with
    | some t => t.name
    | none => "small"

/-- The default tier set from load_cement_ratios / create_cement_ratios_file:
small [6,12), medium [12,20), large [20,50), in this insertion order. -/
def defaultTiers : List Tier :=
  [⟨"small", 1, 2, 3, some (6, 12)⟩,
   ⟨"medium", 1, 2, 4, some (12, 20)⟩,
   ⟨"large", 1, 3, 5, some (20, 50)⟩]

/-- A hot-swappable tier configuration (cement_ratios.json is external
configuration) on which the source's classification and the spec's
sorted-scan-with-smallest-fallback classification disagree: the tier
named small has range [20,50) and the smallest tier is named tiny. -/
def tiersAlt : List Tier :=
  [⟨"small", 1, 2, 3, some (20, 50)⟩,
   ⟨"tiny", 1, 1, 2, some (6, 12)⟩]

/-- Claim C1, counterexample: at diameter 15 mm under the configuration
tiersAlt no tier range contains the diameter, the spec's rule (sort
ascending by range minimum, fall back to the smallest tier) yields the
tier named tiny, but the source's classification falls back to the
literal string "small", so the claim's description of the scan is false
for this configured tier set. -/
theorem claim1_counterexample :
    classify tiersAlt 15 = "small" ∧
    specTierClassify tiersAlt 15 = "tiny" ∧
    classify tiersAlt 15 ≠ specTierClassify tiersAlt 15 := by
  refine ⟨rfl, rfl, ?_⟩
  decide

/-- Claim C1, amended: tier classification scans the configured tiers in
their configuration order and assigns the first tier whose [min, max)
range contains diameter_mm; if no tier's range contains diameter_mm the
literal tier name "small" is assigned as fallback (for the default tier
set this is also the smallest tier). With the default tiers small [6,12),
medium [12,20), large [20,50): diameter 11.99 mm maps to small, 12.0 mm
to medium, 49.99 mm to large, and both 5.0 mm and 50.0 mm to small. -/
theorem claim1_amended :
    (∀ d : ℚ, classify defaultTiers d =
      if 6 ≤ d ∧ d < 12 then "small"
      else if 12 ≤ d ∧ d < 20 then "medium"
      else if 20 ≤ d ∧ d < 50 then "large"
      else "small") ∧
    classify defaultTiers (1199/100) = "small" ∧
    classify defaultTiers 12 = "medium" ∧
    classify defaultTiers (4999/100) = "large" ∧
    classify defaultTiers 5 = "small" ∧
    classify defaultTiers 50 = "small" ∧
    (∀ (tiers : List Tier) (d : ℚ),
      (∀ t ∈ tiers, tierContains t d = false) → classify tiers d = "small") := by
  have hchar : ∀ d : ℚ, classify defaultTiers d =
      if 6 ≤ d ∧ d < 12 then "small"
      else if 12 ≤ d ∧ d < 20 then "medium"
      else if 20 ≤ d ∧ d < 50 then "large"
      else "small" := by
    intro d
    simp only [classify, defaultTiers, tierContains, Bool.and_eq_true, decide_eq_true_eq]
  refine ⟨hchar, ?_, ?_, ?_, ?_, ?_, ?_⟩
  · rw [hchar]; norm_num
  · rw [hchar]; norm_num
  · rw [hchar]; norm_num
  · rw [hchar]; norm_num
  · rw [hchar]; norm_num
  · intro tiers d h
    induction tiers with
    | nil => rfl
    | cons t ts ih =>
      have ht : tierContains t d = false := h t (List.mem_cons_self t ts)
      simp only [classify, ht, Bool.false_eq_true, if_false]
      exact ih fun u hu => h u (List.mem_cons_of_mem t hu)

/-- Claim C1, witness: the fallback clause of the amended claim applied at
diameter 100 mm with the default tiers, whose ranges all miss 100. -/
theorem claim1_witness : classify defaultTiers 100 = "small" :=
  claim1_amended.2.2.2.2.2.2 defaultTiers 100 (by decide)

/-- A pixel bounding box (x1, y1, x2, y2) as produced by the section
detection model (coordinates cast to int in the source). -/
structure Box where
  x1 : ℤ
  y1 : ℤ
  x2 : ℤ
  y2 : ℤ
deriving DecidableEq, Repr

/-- The placeholder pixel-to-millimetre calibration constant of
detect_sections (mm_per_pixel = 0.1). -/
def mm_per_pixel : ℚ := 1/10

/-- The pixel-to-centimetre factor hardcoded in detect_sections
(length_cm = height_px * 0.1, width_cm = width_px * 0.1). -/
def pixel_to_cm : ℚ := 1/10

/-- The per-segment geometric quantities computed in the detect_sections
loop, before any rounding, parameterised by the pixel-to-centimetre
factor (the source instantiates it at pixel_to_cm = 0.1):
width_px = x2 - x1, height_px = y2 - y1, diameter_px = min of the two,
diameter_mm = diameter_px * mm_per_pixel, length_cm = height_px * factor,
width_cm = width_px * factor, height_cm = width_cm and
volume_cc = length_cm * width_cm * height_cm. -/
structure RawMeasure where
  width_px : ℤ
  height_px : ℤ
  diameter_px : ℤ
  diameter_mm : ℚ
  length_cm : ℚ
  width_cm : ℚ
  height_cm : ℚ
  volume_cc : ℚ
deriving DecidableEq, Repr

def rawMeasure (p2cm : ℚ) (b : Box) : RawMeasure :=
  let width_px := b.x2 - b.x1
  let height_px := b.y2 - b.y1
  let diameter_px := min width_px height_px
  let diameter_mm := (diameter_px : ℚ) * mm_per_pixel
  let length_cm := (height_px : ℚ) * p2cm
  let width_cm := (width_px : ℚ) * p2cm
  let height_cm := width_cm
  let volume_cc := length_cm * width_cm * height_cm
  ⟨width_px, height_px, diameter_px, diameter_mm, length_cm, width_cm, height_cm, volume_cc⟩

/-- Round half to even at the integers, the tie-breaking rule of Python's
round builtin (the floating representation error of the Python floats is
idealised away: quantities are modelled as exact rationals). -/
def roundHalfEven (q : ℚ) : ℤ :=
  let f := ⌊q⌋
  let r := q - f
  if r < 1/2 then f
  else if 1/2 < r then f + 1
  else if f % 2 = 0 then f else f + 1

/-- Python's round(q, ndigits). -/
def pyRound (ndigits : ℕ) (q : ℚ) : ℚ :=
  (roundHalfEven (q * 10 ^ ndigits) : ℚ) / 10 ^ ndigits

/-- One entry of current_results / section_text_results as assembled in
the detect_sections loop (the section_data rows add a timestamp column
for the CSV writer; the timestamp is not needed by the API path and is
kept out of the record). -/
structure SectionRecord where
  section_id : ℕ
  size_category : String
  diameter_mm : ℚ
  confidence : ℚ
  width_cm : ℚ
  length_cm : ℚ
  height_cm : ℚ
  volume_cc : ℚ
  cement_ratio : ℕ
  sand_ratio : ℕ
  aggregate_ratio : ℕ
  bbox : List ℤ
deriving DecidableEq, Repr

/-- Dictionary lookup self.cement_ratios[size] on the configured tier
list; total with a dummy default (every lookup the source performs uses a
name produced by classify over the same list, which for the configurations
considered here is always present). -/
def lookupTier (tiers : List Tier) (n : String) : Option Tier :=
  tiers.find? (fun t => t.name == n)

def sectionRecord (tiers : List Tier) (p2cm : ℚ) (i : ℕ) (b : Box) (score : ℚ) :
    SectionRecord :=
  let m := rawMeasure p2cm b
  let size := classify tiers m.diameter_mm
  let ratio := (lookupTier tiers size).getD ⟨"", 0, 0, 0, none⟩
  { section_id := i + 1
    size_category := size
    diameter_mm := pyRound 2 m.diameter_mm
    confidence := pyRound 3 score
    width_cm := pyRound 2 m.width_cm
    length_cm := pyRound 2 m.length_cm
    height_cm := pyRound 2 m.height_cm
    volume_cc := pyRound 2 m.volume_cc
    cement_ratio := ratio.cement
    sand_ratio := ratio.sand
    aggregate_ratio := ratio.aggregate
    bbox := [b.x1, b.y1, b.x2, b.y2] }

/-- The detect_sections loop over the section detections (box, score),
enumerated in detection-output order with 1-based section ids. -/
def detectSections (tiers : List Tier) (p2cm : ℚ) (dets : List (Box × ℚ)) :
    List SectionRecord :=
  dets.enum.map (fun p => sectionRecord tiers p2cm p.1 p.2.1 p.2.2)

/-- Claim C5: for every detected segment with pixel box (x1,y1,x2,y2) the
quantities computed by the measurement step satisfy width_px = x2-x1,
height_px = y2-y1, diameter_px = min(width_px, height_px), length_cm =
height_px * pixel_to_cm, width_cm = width_px * pixel_to_cm, height_cm =
width_cm and volume_cc = length_cm * width_cm * height_cm, for every
pixel-to-cm factor (the source hardcodes 0.1); and at factor 0.01 the box
(10,10,30,50) yields width_px = 20, width_cm = 0.2, height_px = 40,
length_cm = 0.4, height_cm = 0.2 and volume_cc = 0.016. -/
theorem claim5_measurement :
    (∀ (p : ℚ) (b : Box),
      (rawMeasure p b).width_px = b.x2 - b.x1 ∧
      (rawMeasure p b).height_px = b.y2 - b.y1 ∧
      (rawMeasure p b).diameter_px
        = min ((rawMeasure p b).width_px) ((rawMeasure p b).height_px) ∧
      (rawMeasure p b).length_cm = ((rawMeasure p b).height_px : ℚ) * p ∧
      (rawMeasure p b).width_cm = ((rawMeasure p b).width_px : ℚ) * p ∧
      (rawMeasure p b).height_cm = (rawMeasure p b).width_cm ∧
      (rawMeasure p b).volume_cc
        = (rawMeasure p b).length_cm * (rawMeasure p b).width_cm
            * (rawMeasure p b).height_cm) ∧
    (rawMeasure (1/100) ⟨10, 10, 30, 50⟩).width_px = 20 ∧
    (rawMeasure (1/100) ⟨10, 10, 30, 50⟩).width_cm = 2/10 ∧
    (rawMeasure (1/100) ⟨10, 10, 30, 50⟩).height_px = 40 ∧
    (rawMeasure (1/100) ⟨10, 10, 30, 50⟩).length_cm = 4/10 ∧
    (rawMeasure (1/100) ⟨10, 10, 30, 50⟩).height_cm = 2/10 ∧
    (rawMeasure (1/100) ⟨10, 10, 30, 50⟩).volume_cc = 16/1000 := by
  refine ⟨fun p b => ⟨rfl, rfl, rfl, rfl, rfl, rfl, rfl⟩, rfl, ?_, rfl, ?_, ?_, ?_⟩
  all_goals simp only [rawMeasure]; norm_num

/-- A segment entry of the API snapshot, as assembled in update_api_data
(the mix-ratio columns of the section record are not copied to the API
segment dictionary). -/
structure Segment where
  section_id : ℕ
  size_category : String
  diameter_mm : ℚ
  confidence : ℚ
  width_cm : ℚ
  length_cm : ℚ
  height_cm : ℚ
  volume_cc : ℚ
  bbox : List ℤ
deriving DecidableEq, Repr

/-- The global latest_analysis dictionary of master.py. -/
structure LatestAnalysis where
  timestamp : Option String
  image : Option String
  image_path : Option String
  segments : List Segment
  total_volume : ℚ
deriving DecidableEq, Repr

/-- The initial value of latest_analysis before any publication:
timestamp None, image None, image_path None, empty segments, volume 0. -/
def initial_latest : LatestAnalysis := ⟨none, none, none, [], 0⟩

/-- The per-result segment dictionary built in the update_api_data loop. -/
def toApiSegment (r : SectionRecord) : Segment :=
  { section_id := r.section_id
    size_category := r.size_category
    diameter_mm := r.diameter_mm
    confidence := r.confidence
    width_cm := r.width_cm
    length_cm := r.length_cm
    height_cm := r.height_cm
    volume_cc := r.volume_cc
    bbox := r.bbox }

/-- One iteration of the update_api_data loop: append the segment and add
its volume_cc to the running total. -/
def apiStep (acc : List Segment × ℚ) (r : SectionRecord) : List Segment × ℚ :=
  let seg := toApiSegment r
  (acc.1 ++ [seg], acc.2 + seg.volume_cc)

/-- update_api_data from master.py: if current_results is empty the
function returns without touching latest_analysis; otherwise it builds
the segments list and the accumulated total volume, stores the encoded
result image when one is available (keeping the previous image
otherwise), and sets timestamp, segments, total_volume and image_path. -/
def update_api_data (st : LatestAnalysis) (results : List SectionRecord)
    (result_image : Option String) (path ts : String) : LatestAnalysis :=
  if results = [] then st
  else
    let p := results.foldl apiStep ([], 0)
    { timestamp := some ts
      image := match result_image with
               | some i => some i
               | none => st.image
      image_path := some path
      segments := p.1
      total_volume := p.2 }

/-- The update_api_data accumulation produces exactly the mapped segment
list together with the sum of the mapped segments' volume_cc values. -/
theorem apiStep_foldl (rs : List SectionRecord) :
    ∀ (s : List Segment) (v : ℚ),
      rs.foldl apiStep (s, v)
        = (s ++ rs.map toApiSegment,
           v + ((rs.map toApiSegment).map Segment.volume_cc).sum) := by
  induction rs with
  | nil => intro s v; simp [apiStep]
  | cons r rs ih =>
    intro s v
    simp only [List.foldl_cons, apiStep, ih, List.map_cons, List.sum_cons,
      Prod.mk.injEq]
    exact ⟨by simp, by ring⟩

/-- Claim C6: whenever update_api_data publishes (a nonempty result
list), the published total_volume equals the sum of the published
segments' volume_cc values exactly, hence with difference 0, at most
1e-6; the initial empty snapshot satisfies the invariant as well. -/
theorem claim6_volume_additivity (st : LatestAnalysis)
    (results : List SectionRecord) (img : Option String) (path ts : String)
    (h : results ≠ []) :
    (update_api_data st results img path ts).total_volume
        = ((update_api_data st results img path ts).segments.map
            Segment.volume_cc).sum ∧
    |(update_api_data st results img path ts).total_volume
        - ((update_api_data st results img path ts).segments.map
            Segment.volume_cc).sum| ≤ 1/1000000 ∧
    initial_latest.total_volume
        = (initial_latest.segments.map Segment.volume_cc).sum := by
  have hmain : (update_api_data st results img path ts).total_volume
      = ((update_api_data st results img path ts).segments.map
          Segment.volume_cc).sum := by
    simp only [update_api_data, if_neg h, apiStep_foldl, List.nil_append, zero_add]
  refine ⟨hmain, ?_, rfl⟩
  rw [hmain, sub_self, abs_zero]
  norm_num

/-- A concrete section record used to instantiate witnesses. -/
def sampleRecord : SectionRecord :=
  { section_id := 1, size_category := "small", diameter_mm := 2
    confidence := 9/10, width_cm := 2, length_cm := 4, height_cm := 2
    volume_cc := 16, cement_ratio := 1, sand_ratio := 2, aggregate_ratio := 3
    bbox := [10, 10, 30, 50] }

/-- Claim C6, witness: the additivity theorem applied to a publication of
the single concrete record sampleRecord over the initial state. -/
theorem claim6_witness :
    [sampleRecord] ≠ ([] : List SectionRecord) ∧
    (update_api_data initial_latest [sampleRecord] none "p" "t").total_volume
      = ((update_api_data initial_latest [sampleRecord] none "p" "t").segments.map
          Segment.volume_cc).sum :=
  ⟨by simp,
   (claim6_volume_additivity initial_latest [sampleRecord] none "p" "t"
      (by simp)).1⟩

/-- The response shape of the /api/latest endpoint. -/
structure LatestResponse where
  timestamp : Option String
  segments : List Segment
  total_volume : ℚ
  image_available : Bool
deriving DecidableEq, Repr

/-- The explicit no-data sentinel returned before the first publication:
timestamp null, empty segments, zero volume, no image. -/
def noDataResponse : LatestResponse := ⟨none, [], 0, false⟩

/-- get_latest from master.py: when latest_analysis has no timestamp the
sentinel is returned, otherwise the snapshot metadata without the image
payload, with image_available reflecting whether an image is stored. -/
def get_latest (a : LatestAnalysis) : LatestResponse :=
  match a.timestamp with
  | none => noDataResponse
  | some ts =>
    { timestamp := some ts
      segments := a.segments
      total_volume := a.total_volume
      image_available := a.image.isSome }

/-- get_latest_image from master.py: a 404 error outcome when no image is
stored, otherwise the encoded image. -/
def get_latest_image (a : LatestAnalysis) : Except (ℕ × String) String :=
  match a.image with
  | none => Except.error (404, "No image available")
  | some img => Except.ok img

/-- Claim C9: before the first publication (any state with a null
timestamp, in particular the initial one) get_latest returns the
sentinel with timestamp null, empty segments, zero volume and
image_available false; and whenever no image is present get_latest_image
returns the 404 NotFound outcome. -/
theorem claim9_sentinel :
    (∀ a : LatestAnalysis, a.timestamp = none → get_latest a = noDataResponse) ∧
    get_latest initial_latest = noDataResponse ∧
    (∀ a : LatestAnalysis, a.image = none →
      get_latest_image a = Except.error (404, "No image available")) ∧
    initial_latest.timestamp = none ∧ initial_latest.image = none := by
  refine ⟨?_, rfl, ?_, rfl, rfl⟩
  · intro a h
    simp [get_latest, h]
  · intro a h
    simp [get_latest_image, h]

/-- Claim C9, witness: both sentinel clauses applied to the initial
state. -/
theorem claim9_witness :
    get_latest initial_latest = noDataResponse ∧
    get_latest_image initial_latest = Except.error (404, "No image available") :=
  ⟨claim9_sentinel.1 initial_latest rfl, claim9_sentinel.2.2.1 initial_latest rfl⟩

/-- Selection of the primary rebar detection in detect_rebar: none when
the model returns no instances, otherwise the highest-scoring box with
ties broken by the earliest index (np.argmax returns the first
maximum). -/
def bestDetection : List (Box × ℚ) → Option (Box × ℚ)
  | [] => none
  | d :: ds => some (ds.foldl (fun best cur => if best.2 < cur.2 then cur else best) d)

/-- The analyze stage of a capture run, composed from detect_rebar,
detect_sections and update_api_data in master.py: when the primary model
yields no detection, detect_rebar returns before calling detect_sections;
when the section model yields no detection, detect_sections returns
before calling update_api_data; in both cases latest_analysis is left
untouched, otherwise the section records are published. -/
def runAnalysis (st : LatestAnalysis) (tiers : List Tier) (p2cm : ℚ)
    (primary sections : List (Box × ℚ)) (img : Option String)
    (path ts : String) : LatestAnalysis :=
  match bestDetection primary with
  | none => st
  | some _ =>
    if sections = [] then st
    else update_api_data st (detectSections tiers p2cm sections) img path ts

/-- Claim C10: a run that ends with zero primary detections or zero
detected sections leaves the published latest-analysis state entirely
unchanged - timestamp, segments, total_volume and image all keep their
previous values. -/
theorem claim10_empty_run (st : LatestAnalysis) (tiers : List Tier) (p2cm : ℚ)
    (primary sections : List (Box × ℚ)) (img : Option String) (path ts : String)
    (h : primary = [] ∨ sections = []) :
    runAnalysis st tiers p2cm primary sections img path ts = st := by
  rcases h with h | h
  · subst h; rfl
  · subst h
    simp only [runAnalysis]
    cases bestDetection primary with
    | none => rfl
    | some d => simp

/-- Claim C10, witness: the empty-run theorem applied at the initial
state with both detection stages empty. -/
theorem claim10_witness :
    runAnalysis initial_latest defaultTiers (1/10) [] [] none "p" "t"
      = initial_latest :=
  claim10_empty_run initial_latest defaultTiers (1/10) [] [] none "p" "t"
    (Or.inl rfl)

/-- The outcome of RebarAnalysisApp.capture_image: either a capture run is
started (the is_processing flag is set and the button disabled), or the
request is silently ignored because a run is already in flight. -/
inductive CaptureOutcome where
  | started
  | ignored
deriving DecidableEq, Repr

/-- The capture-relevant state of RebarAnalysisApp: the is_processing
mutual-exclusion flag and the capture-button state. -/
structure AppState where
  is_processing : Bool
  capture_btn_enabled : Bool
deriving DecidableEq, Repr

/-- capture_image from master.py: when is_processing is already set the
method prints and returns with no state change (the request is neither
queued nor coalesced); otherwise it sets is_processing, disables the
capture button and starts the capture thread. -/
def capture_image (s : AppState) : AppState × CaptureOutcome :=
  if s.is_processing then (s, CaptureOutcome.ignored)
  else ({ is_processing := true, capture_btn_enabled := false },
        CaptureOutcome.started)

/-- The /api/capture POST handler (trigger_capture) from master.py: when
the application instance exists it spawns a thread invoking
capture_image and immediately returns HTTP 200 with a success message,
regardless of whether the capture was actually started or ignored;
without an application instance it returns HTTP 500. -/
def api_capture (appAvailable : Bool) (s : AppState) : AppState × ℕ × String :=
  if appAvailable then
    ((capture_image s).1, 200, "Capture triggered successfully")
  else (s, 500, "Application instance not available")

/-- The state during an in-flight capture/analysis run: is_processing set
and the capture button disabled. -/
def busyState : AppState := ⟨true, false⟩

/-- Claim C2, counterexample: with a capture/analysis run in flight, the
API-level trigger still answers HTTP 200 with the success message (the
same Accepted answer as when idle) and not an Unavailable or
AlreadyInProgress outcome; no non-success status is ever produced while
the application instance exists. -/
theorem claim2_counterexample :
    api_capture true busyState = (busyState, 200, "Capture triggered successfully") ∧
    (api_capture true busyState).2.1 = (api_capture true ⟨false, true⟩).2.1 := by
  exact ⟨rfl, rfl⟩

/-- Claim C2, amended: triggering a second capture while a run is in
flight has no side effect - capture_image returns immediately with the
state unchanged, so the in-flight run proceeds unaffected and the extra
trigger is never queued or coalesced - but the failure is silent: the
API-level trigger still returns Accepted (HTTP 200, success message)
rather than an Unavailable/AlreadyInProgress outcome. -/
theorem claim2_amended (s : AppState) (h : s.is_processing = true) :
    capture_image s = (s, CaptureOutcome.ignored) ∧
    api_capture true s = (s, 200, "Capture triggered successfully") := by
  constructor
  · simp [capture_image, h]
  · simp [api_capture, capture_image, h]

/-- Claim C2, witness: the amended claim applied at the busy state. -/
theorem claim2_witness :
    capture_image busyState = (busyState, CaptureOutcome.ignored) ∧
    api_capture true busyState = (busyState, 200, "Capture triggered successfully") :=
  claim2_amended busyState rfl

/-- DeviceConfig: the detection threshold (stored in the rebar model
configuration as SCORE_THRESH_TEST) and the external camera index. -/
structure DeviceConfig where
  detection_threshold : ℚ
  camera_index : ℤ
deriving DecidableEq, Repr

/-- A partial configuration update as posted to /api/config. -/
structure ConfigUpdate where
  detection_threshold : Option ℚ
  external_camera_index : Option ℤ
deriving DecidableEq, Repr

/-- The /api/config POST handler (update_config) from master.py: a
provided detection_threshold is stored directly with no range check; a
provided camera index is stored (and the camera reinitialised) whenever
it differs from the current one, again with no sign check; the handler
then answers HTTP 200 with a success message. -/
def update_config (cfg : DeviceConfig) (u : ConfigUpdate) :
    DeviceConfig × ℕ × String :=
  let cfg1 := match u.detection_threshold with
              | some t => { cfg with detection_threshold := t }
              | none => cfg
  let cfg2 := match u.external_camera_index with
              | some i =>
                if cfg1.camera_index ≠ i then { cfg1 with camera_index := i }
                else cfg1
              | none => cfg1
  (cfg2, 200, "Configuration updated")

/-- Claim C3, counterexample: set_config with detection_threshold 1.5
(outside [0,1]) on the default configuration is not rejected: the
handler answers HTTP 200 and the stored threshold becomes 1.5, so the
configuration does change. -/
theorem claim3_counterexample :
    update_config ⟨7/10, 0⟩ ⟨some (3/2), none⟩
      = (⟨3/2, 0⟩, 200, "Configuration updated") ∧
    (update_config ⟨7/10, 0⟩ ⟨some (3/2), none⟩).1 ≠ ⟨7/10, 0⟩ := by
  refine ⟨rfl, ?_⟩
  intro h
  have h2 : (3/2 : ℚ) = 7/10 := congrArg DeviceConfig.detection_threshold h
  norm_num at h2

/-- Claim C3, amended: configuration updates are applied without any
validation: any provided detection_threshold (in particular 1.5, outside
[0,1]) and any provided camera index (in particular a negative one) are
written into the device configuration and the caller receives a success
response; no rejection path exists in the handler. -/
theorem claim3_amended :
    (∀ (cfg : DeviceConfig) (t : ℚ),
      update_config cfg ⟨some t, none⟩
        = ({ cfg with detection_threshold := t }, 200, "Configuration updated")) ∧
    (∀ (cfg : DeviceConfig) (i : ℤ),
      update_config cfg ⟨none, some i⟩
        = ({ cfg with camera_index := i }, 200, "Configuration updated")) := by
  constructor
  · intro cfg t; rfl
  · intro cfg i
    rcases cfg with ⟨t0, i0⟩
    by_cases h : i0 = i
    · subst h; simp [update_config]
    · simp [update_config, h]

/-- The inputs one relay poll cycle receives from the network, each call
modelled as an Except value: error means the request raised an exception
(timeout, connection failure), ok carries the HTTP outcome. statusProbe
and latestProbe are the two requests of check_connection; latestFetch is
the main /api/latest request of the loop body (ok none: a non-200
response, ok some: a 200 response with its parsed payload); imageFetch is
the /api/latest_image request (ok none: a non-200 response). -/
structure CycleInput where
  statusProbe : Except Unit ℕ
  latestProbe : Except Unit ℕ
  latestFetch : Except Unit (Option LatestResponse)
  imageFetch : Except Unit (Option String)

/-- The latest_data cache of app.py. -/
structure RelayCache where
  connected : Bool
  last_image : Option String
  last_results : List Segment
  last_update : Option String
  total_volume : ℚ
deriving DecidableEq, Repr

/-- The initial latest_data value of app.py. -/
def relayInit : RelayCache := ⟨false, none, [], none, 0⟩

/-- The events the relay broadcasts to its subscribed clients. -/
inductive Ev where
  | connection_status (connected : Bool)
  | new_data (connected : Bool) (timestamp : Option String) (has_image : Bool)
      (segments_count : ℕ) (total_volume : ℚ)
  | connection_error
deriving DecidableEq, Repr

/-- check_connection from app.py: reachable means the /api/status request
returns 200 and the follow-up /api/latest request returns 200; an
exception anywhere (both requests sit inside try blocks) or any non-200
status code yields false. -/
def check_connection (i : CycleInput) : Bool :=
  match i.statusProbe with
  | Except.error _ => false
  | Except.ok code =>
    if code = 200 then
      match i.latestProbe with
      | Except.error _ => false
      | Except.ok dcode => if dcode = 200 then true else false
    else false

/-- The edge-triggered connection_status broadcast of the poll loop:
emitted only when the freshly computed flag differs from the cached
one. -/
def connectionEvents (old new : Bool) : List Ev :=
  if new ≠ old then [Ev.connection_status new] else []

/-- The new_data payload broadcast after the cache was updated: connected
true, the cached timestamp, whether an image is cached, the number of
cached segments and the cached total volume. -/
def newDataEv (c : RelayCache) : Ev :=
  Ev.new_data true c.last_update c.last_image.isSome c.last_results.length
    c.total_volume

/-- The body of the connected branch of the poll loop in get_raspi_data,
operating on the cache with the connected flag already stored: an
exception on the /api/latest fetch broadcasts connection_error plus a
false heartbeat; a non-200 response just broadcasts the heartbeat; on a
200 response with an unchanged timestamp nothing is cached and only the
heartbeat is broadcast; with a changed timestamp the timestamp, segments
and total volume are cached, then - only if the payload flags an image as
available - the image is fetched (an exception there aborts to
connection_error with the cache already updated; a non-200 image response
is silently skipped), and one new_data event plus the heartbeat are
broadcast. -/
def pollConnected (c : RelayCache) (i : CycleInput) : RelayCache × List Ev :=
  match i.latestFetch with
  | Except.error _ => (c, [Ev.connection_error, Ev.connection_status false])
  | Except.ok none => (c, [Ev.connection_status true])
  | Except.ok (some d) =>
    if d.timestamp ≠ c.last_update then
      let c2 := { c with last_update := d.timestamp
                         last_results := d.segments
                         total_volume := d.total_volume }
      if d.image_available then
        match i.imageFetch with
        | Except.error _ => (c2, [Ev.connection_error, Ev.connection_status false])
        | Except.ok (some img) =>
          let c3 := { c2 with last_image := some img }
          (c3, [newDataEv c3, Ev.connection_status true])
        | Except.ok none => (c2, [newDataEv c2, Ev.connection_status true])
      else (c2, [newDataEv c2, Ev.connection_status true])
    else (c, [Ev.connection_status true])

/-- One full iteration of the get_raspi_data polling loop of app.py:
compute the connected flag via check_connection, store it, broadcast the
edge-triggered connection_status when it changed, then either run the
connected branch or broadcast the false heartbeat. -/
def poll_cycle (c : RelayCache) (i : CycleInput) : RelayCache × List Ev :=
  let connected := check_connection i
  let evs0 := connectionEvents c.connected connected
  let c1 := { c with connected := connected }
  if connected then
    let r := pollConnected c1 i
    (r.1, evs0 ++ r.2)
  else (c1, evs0 ++ [Ev.connection_status false])

/-- Test for the new_data constructor. -/
def isNewData : Ev → Bool
  | Ev.new_data _ _ _ _ _ => true
  | _ => false

/-- The number of new_data events in a broadcast list. -/
def countNewData (evs : List Ev) : ℕ := (evs.filter isNewData).length

theorem countNewData_append (a b : List Ev) :
    countNewData (a ++ b) = countNewData a + countNewData b := by
  simp [countNewData, List.filter_append]

theorem countNewData_connectionEvents (old new : Bool) :
    countNewData (connectionEvents old new) = 0 := by
  unfold connectionEvents
  split <;> simp [countNewData, isNewData]

/-- The connected flag stored by a poll cycle is exactly the result of
check_connection for that cycle. -/
theorem pollConnected_connected (c : RelayCache) (i : CycleInput) :
    (pollConnected c i).1.connected = c.connected := by
  unfold pollConnected
  rcases i.latestFetch with e | d
  · rfl
  · rcases d with _ | d
    · rfl
    · by_cases hts : d.timestamp = c.last_update
      · simp [hts]
      · by_cases hav : d.image_available
        · rcases i.imageFetch with e | img
          · simp [hts, hav]
          · rcases img with _ | img <;> simp [hts, hav]
        · simp [hts, hav]

theorem poll_cycle_connected (c : RelayCache) (i : CycleInput) :
    (poll_cycle c i).1.connected = check_connection i := by
  unfold poll_cycle
  by_cases h : check_connection i
  · simp only [h, if_true]
    rw [pollConnected_connected]
  · simp [h]

/-- Claim C8: a poll cycle's connected flag is true exactly when both the
status probe and the latest probe of check_connection return HTTP 200;
any exception or any non-200 response in either call makes the flag
false for the cycle - in particular a 200 status probe followed by a
latest probe that raises yields connected false. -/
theorem claim8_connected_iff :
    (∀ i : CycleInput,
      check_connection i = true ↔
        (i.statusProbe = Except.ok 200 ∧ i.latestProbe = Except.ok 200)) ∧
    (∀ (c : RelayCache) (i : CycleInput),
      (poll_cycle c i).1.connected = check_connection i) ∧
    (∀ (lf : Except Unit (Option LatestResponse))
       (imf : Except Unit (Option String)),
      check_connection ⟨Except.ok 200, Except.error (), lf, imf⟩ = false) := by
  refine ⟨?_, poll_cycle_connected, ?_⟩
  · intro i
    unfold check_connection
    rcases i with ⟨sp, lp, lf, imf⟩
    rcases sp with e | code
    · simp
    · by_cases hc : code = 200
      · subst hc
        rcases lp with e | dcode
        · simp
        · by_cases hd : dcode = 200
          · subst hd; simp
          · simp [hd]
      · simp [hc, Ne.symm hc]
  · intro lf imf
    rfl

/-- Claim C8, witness: the characterisation applied at a fully successful
probe pair, and the connectivity flip at a failing latest probe. -/
theorem claim8_witness :
    check_connection ⟨Except.ok 200, Except.ok 200, Except.ok none, Except.ok none⟩
      = true ∧
    check_connection ⟨Except.ok 200, Except.error (), Except.ok none, Except.ok none⟩
      = false :=
  ⟨(claim8_connected_iff.1 _).mpr ⟨rfl, rfl⟩,
   claim8_connected_iff.2.2 (Except.ok none) (Except.ok none)⟩

/-- A connected poll cycle is the edge-triggered broadcast followed by the
connected branch run on the cache with the flag stored. -/
theorem poll_cycle_true (c : RelayCache) (i : CycleInput)
    (hconn : check_connection i = true) :
    poll_cycle c i
      = ((pollConnected { c with connected := true } i).1,
         connectionEvents c.connected true
           ++ (pollConnected { c with connected := true } i).2) := by
  unfold poll_cycle
  simp [hconn]

/-- Connected branch, unchanged timestamp: no cache write, only the
heartbeat broadcast. -/
theorem pollConnected_eq_ts (c : RelayCache) (i : CycleInput) (d : LatestResponse)
    (hfetch : i.latestFetch = Except.ok (some d))
    (heq : d.timestamp = c.last_update) :
    pollConnected c i = (c, [Ev.connection_status true]) := by
  unfold pollConnected
  simp [hfetch, heq]

/-- Connected branch, new timestamp, payload without an available image:
cache updated, one new_data broadcast plus the heartbeat, image left
alone. -/
theorem pollConnected_ne_noimg (c : RelayCache) (i : CycleInput) (d : LatestResponse)
    (hfetch : i.latestFetch = Except.ok (some d))
    (hne : d.timestamp ≠ c.last_update) (hav : d.image_available = false) :
    pollConnected c i
      = ({ c with last_update := d.timestamp, last_results := d.segments,
                  total_volume := d.total_volume },
         [newDataEv { c with last_update := d.timestamp, last_results := d.segments,
                             total_volume := d.total_volume },
          Ev.connection_status true]) := by
  unfold pollConnected
  simp [hfetch, hne, hav]

/-- Connected branch, new timestamp, image available and fetched with a
200 response: cache and image updated, one new_data broadcast. -/
theorem pollConnected_ne_imgok (c : RelayCache) (i : CycleInput)
    (d : LatestResponse) (img : String)
    (hfetch : i.latestFetch = Except.ok (some d))
    (hne : d.timestamp ≠ c.last_update) (hav : d.image_available = true)
    (himg : i.imageFetch = Except.ok (some img)) :
    pollConnected c i
      = ({ c with last_update := d.timestamp, last_results := d.segments,
                  total_volume := d.total_volume, last_image := some img },
         [newDataEv { c with last_update := d.timestamp, last_results := d.segments,
                             total_volume := d.total_volume, last_image := some img },
          Ev.connection_status true]) := by
  unfold pollConnected
  simp [hfetch, hne, hav, himg]

/-- Connected branch, new timestamp, image available but the image
request answers non-200: cache updated, image kept, one new_data
broadcast. -/
theorem pollConnected_ne_imgnone (c : RelayCache) (i : CycleInput)
    (d : LatestResponse)
    (hfetch : i.latestFetch = Except.ok (some d))
    (hne : d.timestamp ≠ c.last_update) (hav : d.image_available = true)
    (himg : i.imageFetch = Except.ok none) :
    pollConnected c i
      = ({ c with last_update := d.timestamp, last_results := d.segments,
                  total_volume := d.total_volume },
         [newDataEv { c with last_update := d.timestamp, last_results := d.segments,
                             total_volume := d.total_volume },
          Ev.connection_status true]) := by
  unfold pollConnected
  simp [hfetch, hne, hav, himg]

/-- Connected branch, new timestamp, image available but the image
request raises: the cache was already updated, yet no new_data event is
broadcast - the cycle aborts to connection_error plus a false
heartbeat. -/
theorem pollConnected_ne_imgerr (c : RelayCache) (i : CycleInput)
    (d : LatestResponse) (u : Unit)
    (hfetch : i.latestFetch = Except.ok (some d))
    (hne : d.timestamp ≠ c.last_update) (hav : d.image_available = true)
    (himg : i.imageFetch = Except.error u) :
    pollConnected c i
      = ({ c with last_update := d.timestamp, last_results := d.segments,
                  total_volume := d.total_volume },
         [Ev.connection_error, Ev.connection_status false]) := by
  unfold pollConnected
  simp [hfetch, hne, hav, himg]

/-- Any poll cycle whose fetched timestamp equals the cached one
broadcasts no new_data event, whatever the connectivity. -/
theorem countNewData_poll_of_eq (c : RelayCache) (i : CycleInput)
    (d : LatestResponse)
    (hfetch : i.latestFetch = Except.ok (some d))
    (heq : d.timestamp = c.last_update) :
    countNewData (poll_cycle c i).2 = 0 := by
  by_cases hconn : check_connection i = true
  · rw [poll_cycle_true c i hconn,
      pollConnected_eq_ts { c with connected := true } i d hfetch heq]
    rw [countNewData_append, countNewData_connectionEvents]
    rfl
  · rw [Bool.not_eq_true] at hconn
    have hp : poll_cycle c i
        = ({ c with connected := false },
           connectionEvents c.connected false ++ [Ev.connection_status false]) := by
      unfold poll_cycle
      simp [hconn]
    rw [hp, countNewData_append, countNewData_connectionEvents]
    rfl

/-- A poll-cycle input whose probes succeed, whose /api/latest fetch
returns a payload with a fresh timestamp and an available image, and
whose image fetch raises an exception. -/
def cex7Payload : LatestResponse := ⟨some "T1", [], 0, true⟩

def cex7Input : CycleInput :=
  ⟨Except.ok 200, Except.ok 200, Except.ok (some cex7Payload), Except.error ()⟩

/-- Claim C7, counterexample: a connected cycle fetches a payload whose
timestamp differs from the cached one (so the claim demands exactly one
new_data broadcast), but because the image fetch raises an exception the
cycle broadcasts zero new_data events - even though the cache timestamp
was already updated. -/
theorem claim7_counterexample :
    check_connection cex7Input = true ∧
    cex7Payload.timestamp ≠ relayInit.last_update ∧
    (poll_cycle relayInit cex7Input).1.last_update = some "T1" ∧
    countNewData (poll_cycle relayInit cex7Input).2 = 0 := by
  refine ⟨rfl, by simp [cex7Payload, relayInit], rfl, rfl⟩

/-- Claim C7, amended: in a connected poll cycle whose /api/latest fetch
returns a payload, (i) an unchanged timestamp leaves the whole local
cache (timestamp, segments, total_volume, image) untouched and
broadcasts no new_data event; (ii) a changed timestamp updates the
cached timestamp, segments and total_volume, leaves the image untouched
when image_available was not set, and broadcasts exactly one new_data
event provided the image fetch does not raise an exception (when
image_available is set and the image fetch raises, the cache is still
updated but no new_data is broadcast); and (iii) a follow-up cycle that
fetches the same timestamp again broadcasts no further new_data event,
so polling twice with an unchanged timestamp produces exactly one
new_data broadcast. -/
theorem claim7_amended (c : RelayCache) (i : CycleInput) (d : LatestResponse)
    (hconn : check_connection i = true)
    (hfetch : i.latestFetch = Except.ok (some d)) :
    (d.timestamp = c.last_update →
      (poll_cycle c i).1.last_update = c.last_update ∧
      (poll_cycle c i).1.last_results = c.last_results ∧
      (poll_cycle c i).1.total_volume = c.total_volume ∧
      (poll_cycle c i).1.last_image = c.last_image ∧
      countNewData (poll_cycle c i).2 = 0) ∧
    (d.timestamp ≠ c.last_update →
      (poll_cycle c i).1.last_update = d.timestamp ∧
      (poll_cycle c i).1.last_results = d.segments ∧
      (poll_cycle c i).1.total_volume = d.total_volume ∧
      (d.image_available = false →
        (poll_cycle c i).1.last_image = c.last_image ∧
        countNewData (poll_cycle c i).2 = 1) ∧
      (∀ r, i.imageFetch = Except.ok r → countNewData (poll_cycle c i).2 = 1)) ∧
    (∀ (i2 : CycleInput) (d2 : LatestResponse),
      i2.latestFetch = Except.ok (some d2) →
      d2.timestamp = (poll_cycle c i).1.last_update →
      countNewData (poll_cycle (poll_cycle c i).1 i2).2 = 0) := by
  refine ⟨?_, ?_, ?_⟩
  · intro heq
    rw [poll_cycle_true c i hconn,
      pollConnected_eq_ts { c with connected := true } i d hfetch heq]
    refine ⟨rfl, rfl, rfl, rfl, ?_⟩
    rw [countNewData_append, countNewData_connectionEvents]
    rfl
  · intro hne
    by_cases hav : d.image_available
    · rcases himg : i.imageFetch with u | r
      · rw [poll_cycle_true c i hconn,
          pollConnected_ne_imgerr { c with connected := true } i d u hfetch hne hav himg]
        refine ⟨rfl, rfl, rfl, ?_, ?_⟩
        · intro h; exact absurd h (by simp [hav])
        · intro r hr; exact Except.noConfusion hr
      · rcases r with _ | img
        · rw [poll_cycle_true c i hconn,
            pollConnected_ne_imgnone { c with connected := true } i d hfetch hne hav himg]
          refine ⟨rfl, rfl, rfl, ?_, ?_⟩
          · intro h; exact absurd h (by simp [hav])
          · intro r hr
            rw [countNewData_append, countNewData_connectionEvents]
            rfl
        · rw [poll_cycle_true c i hconn,
            pollConnected_ne_imgok { c with connected := true } i d img hfetch hne hav himg]
          refine ⟨rfl, rfl, rfl, ?_, ?_⟩
          · intro h; exact absurd h (by simp [hav])
          · intro r hr
            rw [countNewData_append, countNewData_connectionEvents]
            rfl
    · rw [Bool.not_eq_true] at hav
      rw [poll_cycle_true c i hconn,
        pollConnected_ne_noimg { c with connected := true } i d hfetch hne hav]
      refine ⟨rfl, rfl, rfl, ?_, ?_⟩
      · intro _
        refine ⟨rfl, ?_⟩
        rw [countNewData_append, countNewData_connectionEvents]
        rfl
      · intro r hr
        rw [countNewData_append, countNewData_connectionEvents]
        rfl
  · intro i2 d2 hf2 heq2
    exact countNewData_poll_of_eq _ i2 d2 hf2 heq2

/-- A fully successful cycle input delivering a fresh timestamp with no
image available, used to instantiate the claim C7 witness. -/
def w7Payload : LatestResponse := ⟨some "A", [], 0, false⟩

def w7Input : CycleInput :=
  ⟨Except.ok 200, Except.ok 200, Except.ok (some w7Payload), Except.ok none⟩

/-- Claim C7, witness: the amended claim applied to the initial relay
cache and a successful cycle delivering timestamp A - the cache adopts
the timestamp and exactly one new_data event is broadcast. -/
theorem claim7_witness :
    (poll_cycle relayInit w7Input).1.last_update = some "A" ∧
    countNewData (poll_cycle relayInit w7Input).2 = 1 := by
  have h := (claim7_amended relayInit w7Input w7Payload rfl rfl).2.1 (by decide)
  exact ⟨h.1, (h.2.2.2.1 rfl).2⟩

/-- The publication in update_api_data as the sequence of individual
global-dictionary writes the source performs, in source order: image
(when a result image exists), then timestamp, segments, total_volume and
image_path. Python executes each assignment atomically but nothing makes
the sequence atomic as a whole. -/
def publishWrites (ts : String) (segs : List Segment) (tot : ℚ)
    (img path : String) : List (LatestAnalysis → LatestAnalysis) :=
  [fun a => { a with image := some img },
   fun a => { a with timestamp := some ts },
   fun a => { a with segments := segs },
   fun a => { a with total_volume := tot },
   fun a => { a with image_path := some path }]

/-- The store contents after the first k writes of a publication. -/
def storeAfter (a0 : LatestAnalysis)
    (ws : List (LatestAnalysis → LatestAnalysis)) (k : ℕ) : LatestAnalysis :=
  (ws.take k).foldl (fun a f => f a) a0

/-- A get_latest read racing the publication: the reader's four field
accesses (timestamp, segments, total_volume, image) each see the store
after some number of completed writes; the counts k1 ≤ k2 ≤ k3 ≤ k4 are
monotone because the reader reads the fields in this order while the
writer only makes progress. -/
def readDuring (a0 : LatestAnalysis)
    (ws : List (LatestAnalysis → LatestAnalysis))
    (k1 k2 k3 k4 : ℕ) : LatestResponse :=
  match (storeAfter a0 ws k1).timestamp with
  | none => noDataResponse
  | some ts =>
    { timestamp := some ts
      segments := (storeAfter a0 ws k2).segments
      total_volume := (storeAfter a0 ws k3).total_volume
      image_available := (storeAfter a0 ws k4).image.isSome }

/-- A previously published snapshot and a subsequent publication used to
exhibit the torn read. -/
def oldSnapshot : LatestAnalysis :=
  ⟨some "A", some "I", some "p", [toApiSegment sampleRecord], 16⟩

def newSegment : Segment :=
  { section_id := 1, size_category := "medium", diameter_mm := 15
    confidence := 8/10, width_cm := 3, length_cm := 5, height_cm := 3
    volume_cc := 45, bbox := [0, 0, 30, 50] }

def newWrites : List (LatestAnalysis → LatestAnalysis) :=
  publishWrites "B" [newSegment] 45 "J" "q"

/-- Claim C4, counterexample: a reader whose reads fall between the
timestamp write and the segments write of a publication observes the new
timestamp B together with the old segments and the old total volume - a
snapshot that matches neither the fully-old nor the fully-new
publication, so publishing is not atomic with respect to readers. -/
theorem claim4_counterexample :
    readDuring oldSnapshot newWrites 2 2 2 2
      = ⟨some "B", [toApiSegment sampleRecord], 16, true⟩ ∧
    get_latest oldSnapshot
      = ⟨some "A", [toApiSegment sampleRecord], 16, true⟩ ∧
    get_latest (storeAfter oldSnapshot newWrites 5)
      = ⟨some "B", [newSegment], 45, true⟩ ∧
    readDuring oldSnapshot newWrites 2 2 2 2 ≠ get_latest oldSnapshot ∧
    readDuring oldSnapshot newWrites 2 2 2 2
      ≠ get_latest (storeAfter oldSnapshot newWrites 5) := by
  refine ⟨rfl, rfl, rfl, ?_, ?_⟩
  · intro h
    have h2 : some "B" = some "A" := congrArg LatestResponse.timestamp h
    simp at h2
  · intro h
    have h2 : [toApiSegment sampleRecord] = [newSegment] :=
      congrArg LatestResponse.segments h
    have h3 : (["small"] : List String) = ["medium"] := by
      simpa [toApiSegment, sampleRecord, newSegment] using
        congrArg (List.map Segment.size_category) h2
    simp at h3

/-- Claim C4, amended: update_api_data publishes by a sequence of
individual field writes (image, timestamp, segments, total_volume,
image_path, in source order) with no synchronisation, so publication is
not atomic: a reader whose field reads all happen before the first write
or all after the last write observes a consistent snapshot (the fully
old or the fully new one respectively), but a reader interleaved after
the timestamp write and before the segments write observes the new
timestamp together with the old segments and old total volume. -/
theorem claim4_amended (a0 : LatestAnalysis) (ts : String)
    (segs : List Segment) (tot : ℚ) (img path : String) :
    readDuring a0 (publishWrites ts segs tot img path) 0 0 0 0
      = get_latest a0 ∧
    readDuring a0 (publishWrites ts segs tot img path) 5 5 5 5
      = get_latest (storeAfter a0 (publishWrites ts segs tot img path) 5) ∧
    (readDuring a0 (publishWrites ts segs tot img path) 2 2 2 2).timestamp
      = some ts ∧
    (readDuring a0 (publishWrites ts segs tot img path) 2 2 2 2).segments
      = a0.segments ∧
    (readDuring a0 (publishWrites ts segs tot img path) 2 2 2 2).total_volume
      = a0.total_volume := by
  refine ⟨?_, ?_, rfl, rfl, rfl⟩
  · cases h : a0.timestamp with
    | none => simp [readDuring, storeAfter, get_latest, h]
    | some t => simp [readDuring, storeAfter, get_latest, h]
  · rfl
